import Mathlib

/-!
Verification of the DynamoDB-backed building registry
(`pkg/registry/building_dynamodb.go`).

The DynamoDB table is modelled as an association list from the building-ID
key (the table's partition key, `buildingIDAttributeName`) to stored items.
A stored item is either a well-formed encoding of a `Building`
(`dynamodbattribute.MarshalMap` output) or a malformed item on which
`dynamodbattribute.UnmarshalMap` / `UnmarshalListOfMaps` fails.

Failures of the underlying DynamoDB calls (`ScanWithContext`,
`GetItemWithContext`, `PutItemWithContext`, `DeleteItemWithContext`) and of
`MarshalMap` are nondeterministic from the registrar's point of view; they
are passed in as explicit Boolean outcome parameters, so every error path
of the Go code is a reachable branch of the model.

Go's distinction between a nil slice / nil pointer and a present value is
modelled with `Option`: `none` is nil, `some` is a non-nil value.
-/

namespace Liszt

/-- Modelled from the spec: the `Building` entity `{ID: string, Name: string}`.
The struct definition lives outside the provided source files; the spec's
data model section gives exactly these two string fields. -/
structure Building where
  ID : String
  Name : String
deriving DecidableEq, Repr

/-- An item stored in the DynamoDB building table: either the marshalled
form of a building, or a malformed item on which unmarshalling fails. -/
inductive Item where
  | enc (b : Building) : Item
  | malformed : Item
deriving DecidableEq, Repr

/-- Errors crossing the registrar boundary: `invalidArgument` models
`apiutils.NewError(http.StatusBadRequest, msg)`; `storage` models a wrapped
(`errors.WithStack`) DynamoDB I/O or (un)marshalling error. -/
inductive RegErr where
  | invalidArgument (msg : String) : RegErr
  | storage : RegErr
deriving DecidableEq, Repr

/-- Whether an error is the `InvalidArgument` kind (HTTP 400). -/
def RegErr.isInvalidArg : RegErr → Bool
  | .invalidArgument _ => true
  | .storage => false

/-- The DynamoDB building table: association list keyed by the building ID. -/
abbrev Table := List (String × Item)

/-- Key lookup in the table (`GetItemWithContext`): `none` models
`out.Item == nil` for an absent key. -/
def tableLookup (db : Table) (k : String) : Option Item :=
  match db with
  | [] => none
  | (k', v) :: rest => if k' = k then some v else tableLookup rest k

/-- Key removal (`DeleteItemWithContext`): deleting an absent key leaves the
table unchanged and is not an error at the DynamoDB level. -/
def tableDelete (db : Table) (k : String) : Table :=
  db.filter (fun p => p.1 != k)

/-- Key upsert (`PutItemWithContext`): overwrites any item under the same key. -/
def tablePut (db : Table) (k : String) (v : Item) : Table :=
  (k, v) :: tableDelete db k

/-- Decoding of one stored item (`dynamodbattribute.UnmarshalMap`). -/
def unmarshalMap : Item → Except RegErr Building
  | .enc b => .ok b
  | .malformed => .error .storage

/-- Decoding of a scanned list of items
(`dynamodbattribute.UnmarshalListOfMaps`) into the slice pre-allocated by
`make([]*Building, out.Count)`: elements are decoded in order, in place, and
the decoder returns on the first failure. The result pairs the slice with
the error: on failure the slice keeps the successfully decoded prefix and
nil pointers (`none`) from the failing position on. -/
def unmarshalListInto : List Item → List (Option Building) × Option RegErr
  | [] => ([], none)
  | i :: rest =>
    match unmarshalMap i with
    | .error e => (none :: rest.map (fun _ => none), some e)
    | .ok b =>
      (some b :: (unmarshalListInto rest).1, (unmarshalListInto rest).2)

/-- Shallow embedding of `DynamoRegistrar.GetBuildingByID`. `ioFails` is the
outcome of the underlying `GetItemWithContext` call. Returns the Go pair
`(building, err)` with `none` for nil. -/
def GetBuildingByID (db : Table) (ioFails : Bool) (buildingID : String) :
    Option Building × Option RegErr :=
  if ioFails then (none, some .storage)
  else
    match tableLookup db buildingID with
    | none => (none, none)
    | some item =>
      match unmarshalMap item with
      | .ok b => (some b, none)
      | .error e => (none, some e)

/-- Shallow embedding of `DynamoRegistrar.RegisterBuilding`. `input` is the
caller's `*Building` (`none` for nil), `uid` is the value of
`getULID().String()` at this call, and `marshalFails` / `putFails` are the
outcomes of `MarshalMap` and `PutItemWithContext`. Returns the Go pair
`(building, err)` together with the table after the call. -/
def RegisterBuilding (db : Table) (input : Option Building) (uid : String)
    (marshalFails putFails : Bool) :
    (Option Building × Option RegErr) × Table :=
  match input with
  | none => ((none, some (.invalidArgument "building name is required")), db)
  | some b =>
    if b.Name = "" then
      ((none, some (.invalidArgument "building name is required")), db)
    else
      let reg : Building := { b with ID := uid }
      if marshalFails then ((none, some .storage), db)
      else if putFails then ((none, some .storage), db)
      else ((some reg, none), tablePut db reg.ID (Item.enc reg))

/-- Shallow embedding of `DynamoRegistrar.DeregisterBuilding`. `ioFails` is
the outcome of the underlying `DeleteItemWithContext` call. Returns the Go
error together with the table after the call. -/
def DeregisterBuilding (db : Table) (ioFails : Bool) (buildingID : String) :
    Option RegErr × Table :=
  if ioFails then (some .storage, db)
  else (none, tableDelete db buildingID)

/-- Shallow embedding of `DynamoRegistrar.ListBuildings`. `scanFails` is the
outcome of the underlying `ScanWithContext` call. `none` in the first
component models a nil result slice, which occurs only on the scan-failure
path (the named return is still nil there). After a successful scan the
slice is allocated by `make([]*Building, out.Count)` and is non-nil
(`some`), its `*Building` entries modelled by `Option Building`; on a
decode failure the function returns that slice partially filled in place
together with the wrapped error. -/
def ListBuildings (db : Table) (scanFails : Bool) :
    Option (List (Option Building)) × Option RegErr :=
  if scanFails then (none, some .storage)
  else
    (some (unmarshalListInto (db.map Prod.snd)).1,
      (unmarshalListInto (db.map Prod.snd)).2)

/-! ## Helper lemmas about the table model -/

/-- Looking up a key just put into the table finds the item just put. -/
theorem tableLookup_tablePut_self (db : Table) (k : String) (v : Item) :
    tableLookup (tablePut db k v) k = some v := by
  simp [tablePut, tableLookup]

/-- Looking up a key just deleted from the table finds nothing. -/
theorem tableLookup_tableDelete_self (db : Table) (k : String) :
    tableLookup (tableDelete db k) k = none := by
  induction db with
  | nil => rfl
  | cons p rest ih =>
    by_cases h : p.1 = k
    · simpa [tableDelete, List.filter_cons, h] using ih
    · simpa [tableDelete, List.filter_cons, h, tableLookup] using ih

/-- If any scanned item is malformed, decoding the list reports an error. -/
theorem unmarshalListInto_malformed_mem (items : List Item)
    (h : Item.malformed ∈ items) :
    (unmarshalListInto items).2 = some RegErr.storage := by
  induction items with
  | nil => cases h
  | cons i rest ih =>
    cases h with
    | head => rfl
    | tail _ hmem =>
      cases i with
      | enc b => simp [unmarshalListInto, unmarshalMap, ih hmem]
      | malformed => rfl

/-- Decoding into the pre-allocated slice preserves its length. -/
theorem unmarshalListInto_length (items : List Item) :
    (unmarshalListInto items).1.length = items.length := by
  induction items with
  | nil => rfl
  | cons i rest ih =>
    cases hi : unmarshalMap i with
    | error e => simp [unmarshalListInto, hi]
    | ok b => simp [unmarshalListInto, hi, ih]

/-! ## Claim theorems -/

/-- C1: for a valid input building (non-nil with non-empty Name) and a
successful register call, `GetBuildingByID` on the returned building's ID
yields exactly the building `RegisterBuilding` returned, field by field,
with no error (round-trip law). -/
theorem register_get_roundtrip (db : Table) (b : Building) (uid : String)
    (hname : b.Name ≠ "") :
    (RegisterBuilding db (some b) uid false false).1
        = (some { b with ID := uid }, none) ∧
    GetBuildingByID (RegisterBuilding db (some b) uid false false).2 false uid
        = (some { b with ID := uid }, none) := by
  constructor
  · simp [RegisterBuilding, hname]
  · simp [RegisterBuilding, hname, GetBuildingByID, tablePut, tableLookup,
      unmarshalMap]

/-- Witness for C1 at a concrete input. -/
theorem register_get_roundtrip_witness :
    (RegisterBuilding [] (some ⟨"something", "Hilbert"⟩) "01B" false false).1
        = (some ⟨"01B", "Hilbert"⟩, none) ∧
    GetBuildingByID
      (RegisterBuilding [] (some ⟨"something", "Hilbert"⟩) "01B" false false).2
      false "01B" = (some ⟨"01B", "Hilbert"⟩, none) :=
  register_get_roundtrip [] ⟨"something", "Hilbert"⟩ "01B" (by decide)

/-- C2: when the key is absent from storage, `GetBuildingByID` returns a nil
building and a nil error — absence is not an error. -/
theorem get_absent_is_nil_nil (db : Table) (id : String)
    (habsent : tableLookup db id = none) :
    GetBuildingByID db false id = (none, none) := by
  simp [GetBuildingByID, habsent]

/-- Witness for C2 at a concrete input. -/
theorem get_absent_is_nil_nil_witness :
    tableLookup ([] : Table) "nonexistent" = none ∧
    GetBuildingByID [] false "nonexistent" = (none, none) :=
  ⟨rfl, get_absent_is_nil_nil [] "nonexistent" rfl⟩

/-- C3: whatever ID the caller supplied, a building returned by
`RegisterBuilding` carries the freshly generated ULID `uid`, which by the
spec's global-uniqueness guarantee for `getULID` differs from the
caller-supplied ID (hypothesis `hfresh`). -/
theorem register_fresh_id (db : Table) (b : Building) (uid : String)
    (mf pf : Bool) (rb : Building) (hfresh : uid ≠ b.ID)
    (h : (RegisterBuilding db (some b) uid mf pf).1.1 = some rb) :
    rb.ID = uid ∧ rb.ID ≠ b.ID := by
  cases mf <;> cases pf <;> by_cases hn : b.Name = "" <;>
    simp [RegisterBuilding, hn] at h <;>
    (subst h; exact ⟨rfl, hfresh⟩)

/-- Witness for C3 at a concrete input, with the caller-supplied ID
`"something"` of the integration test. -/
theorem register_fresh_id_witness :
    (Building.mk "01C" "Euler").ID = "01C" ∧
    (Building.mk "01C" "Euler").ID ≠ "something" :=
  register_fresh_id [] ⟨"something", "Euler"⟩ "01C" false false
    ⟨"01C", "Euler"⟩ (by decide) (by decide)

/-- C4: `RegisterBuilding` returns an `InvalidArgument` error exactly when
the input is nil or its Name is empty, and in that case the returned
building is nil and the table is untouched (no write attempted). -/
theorem register_invalid_argument (db : Table) (input : Option Building)
    (uid : String) (mf pf : Bool) :
    ((∃ e, (RegisterBuilding db input uid mf pf).1.2 = some e ∧
        e.isInvalidArg = true)
      ↔ (input = none ∨ ∃ b, input = some b ∧ b.Name = "")) ∧
    ((input = none ∨ ∃ b, input = some b ∧ b.Name = "") →
      (RegisterBuilding db input uid mf pf).1.1 = none ∧
      (RegisterBuilding db input uid mf pf).2 = db) := by
  cases input with
  | none => simp [RegisterBuilding, RegErr.isInvalidArg]
  | some b =>
    by_cases hn : b.Name = "" <;> cases mf <;> cases pf <;>
      simp [RegisterBuilding, hn, RegErr.isInvalidArg]

/-- Witness for C4 at a concrete input (empty name). -/
theorem register_invalid_argument_witness :
    (RegisterBuilding [] (some ⟨"id", ""⟩) "01D" false false).1.1 = none ∧
    (RegisterBuilding [] (some ⟨"id", ""⟩) "01D" false false).2 = [] :=
  (register_invalid_argument [] (some ⟨"id", ""⟩) "01D" false false).2
    (Or.inr ⟨⟨"id", ""⟩, rfl, rfl⟩)

/-- C5: `DeregisterBuilding` returns no error for every ID, registered or
not — the underlying `DeleteItemWithContext` does not distinguish absent
keys, so nonexistence is never an error. -/
theorem deregister_never_errors (db : Table) (id : String) :
    (DeregisterBuilding db false id).1 = none := by
  simp [DeregisterBuilding]

/-- C6: after a successful register followed by a deregister of the returned
ID, `GetBuildingByID` on that ID returns a nil building and a nil error. -/
theorem register_deregister_get (db : Table) (b : Building) (uid : String)
    (hname : b.Name ≠ "") :
    GetBuildingByID
      (DeregisterBuilding
        (RegisterBuilding db (some b) uid false false).2 false uid).2
      false uid = (none, none) := by
  have hd := tableLookup_tableDelete_self
    (tablePut db uid (Item.enc { b with ID := uid })) uid
  simp [RegisterBuilding, hname, DeregisterBuilding, GetBuildingByID, hd]

/-- Witness for C6 at a concrete input. -/
theorem register_deregister_get_witness :
    GetBuildingByID
      (DeregisterBuilding
        (RegisterBuilding [] (some ⟨"x", "Noether"⟩) "01E" false false).2
        false "01E").2
      false "01E" = (none, none) :=
  register_deregister_get [] ⟨"x", "Noether"⟩ "01E" (by decide)

/-- C7: on an empty store, `ListBuildings` returns an empty non-nil slice
and a nil error. -/
theorem list_empty_store :
    ListBuildings ([] : Table) false = (some [], none) := rfl

/-- C8 counterexample: with one well-formed item followed by one malformed
item, the decode-failure path returns a non-nil slice that holds the
successfully decoded building in its first entry — a partial list of
successfully decoded buildings is delivered alongside the error, so the
strict all-or-nothing reading of the claim is false of the code. -/
theorem list_decode_partial_counterexample :
    (ListBuildings
        [("a", Item.enc ⟨"a", "Borel"⟩), ("k", Item.malformed)] false).1
      = some [some ⟨"a", "Borel"⟩, none] ∧
    (ListBuildings
        [("a", Item.enc ⟨"a", "Borel"⟩), ("k", Item.malformed)] false).2
      = some RegErr.storage := by
  exact ⟨rfl, rfl⟩

/-- C8 (amended): if any single scanned item fails to decode, the whole
`ListBuildings` call returns a non-nil error; the returned slice is not nil
but the pre-allocated slice of length `out.Count`, filled in place with the
buildings decoded before the first failure and nil pointers from there on —
the result is unusable only by the Go convention of discarding results
accompanied by a non-nil error. -/
theorem list_decode_failure_errors (db : Table)
    (h : Item.malformed ∈ db.map Prod.snd) :
    (ListBuildings db false).2 = some RegErr.storage ∧
    ∃ bs, (ListBuildings db false).1 = some bs ∧ bs.length = db.length := by
  refine ⟨?_, (unmarshalListInto (db.map Prod.snd)).1, rfl, ?_⟩
  · simpa [ListBuildings] using unmarshalListInto_malformed_mem _ h
  · simp [unmarshalListInto_length]

/-- Witness for the amended C8 at a concrete input (one malformed item). -/
theorem list_decode_failure_errors_witness :
    (ListBuildings [("k", Item.malformed)] false).2 = some RegErr.storage ∧
    ∃ bs, (ListBuildings [("k", Item.malformed)] false).1 = some bs ∧
      bs.length = ([("k", Item.malformed)] : Table).length :=
  list_decode_failure_errors [("k", Item.malformed)] (by simp)

/-- C9: `RegisterBuilding` copies its input (`*building = *in`) before
assigning the fresh ID, so the caller's struct is never written through (the
embedding is accordingly a pure function of the input value); on success the
returned building is the input with only the ID field replaced, so in
particular Name is preserved unchanged. -/
theorem register_preserves_input_fields (db : Table) (b : Building)
    (uid : String) (mf pf : Bool) (rb : Building)
    (h : (RegisterBuilding db (some b) uid mf pf).1.1 = some rb) :
    rb = { b with ID := uid } ∧ rb.Name = b.Name := by
  cases mf <;> cases pf <;> by_cases hn : b.Name = "" <;>
    simp [RegisterBuilding, hn] at h <;>
    (subst h; exact ⟨rfl, rfl⟩)

/-- Witness for C9 at a concrete input. -/
theorem register_preserves_input_fields_witness :
    Building.mk "01F" "Gauss" = { Building.mk "old" "Gauss" with ID := "01F" } ∧
    (Building.mk "01F" "Gauss").Name = (Building.mk "old" "Gauss").Name :=
  register_preserves_input_fields [] ⟨"old", "Gauss"⟩ "01F" false false
    ⟨"01F", "Gauss"⟩ (by decide)

/-- C10: neither `RegisterBuilding` nor `GetBuildingByID` ever returns both
a non-nil building and a non-nil error: on every path at least one of the
two results is nil. -/
theorem no_result_with_error (db : Table) (input : Option Building)
    (uid : String) (mf pf ioFails : Bool) (id : String) :
    ((RegisterBuilding db input uid mf pf).1.1 = none ∨
      (RegisterBuilding db input uid mf pf).1.2 = none) ∧
    ((GetBuildingByID db ioFails id).1 = none ∨
      (GetBuildingByID db ioFails id).2 = none) := by
  constructor
  · cases input with
    | none => simp [RegisterBuilding]
    | some b =>
      by_cases hn : b.Name = "" <;> cases mf <;> cases pf <;>
        simp [RegisterBuilding, hn]
  · cases ioFails with
    | true => simp [GetBuildingByID]
    | false =>
      cases hl : tableLookup db id with
      | none => simp [GetBuildingByID, hl]
      | some item =>
        cases item <;> simp [GetBuildingByID, hl, unmarshalMap]

end Liszt
